import Mathlib

/-!
Verification of the market-data fetch layer of the cryptocopilot repository.

The repository's server-side logic consists of HTTP wrapper functions:

* `src/lib/binance.ts` — Binance REST wrappers (`getBinanceTicker`,
  `getBinanceOrderBook`, `getBinanceTrades`, `getBinanceKlines`,
  `getBinanceExchangeInfo`) with a CoinGecko fallback
  (`getCoinGeckoFallback`) used on HTTP 451 or on caught errors whose
  message contains "451" or "fetch".
* the LCX client — `getTicker`, `getTickers` (bulk, per-pair
  success/failure partition) and `findExactPair` (free-text pair
  resolution over the fetched pairs list).

The embedding below is a shallow one: each outbound HTTP request is fed
from a "world" (an infinite sequence of request outcomes, consumed in
order), JSON values are a small inductive type, and thrown JavaScript
errors become the `error` side of `Except`.  JavaScript string operations
used by the code (`includes`, `toUpperCase`, `toLowerCase`,
`replace(/USDT|BUSD|BNB$/i, '')`, `replace(/\s+/g, '')`,
`replace('/', '')`) are modelled character-exactly on `List Char`.
JSON numbers are modelled as `Int`: no claim depends on fractional
numeric values.
-/

/-- JSON values as returned by the providers and built by the fallback. -/
inductive Json where
  | null : Json
  | bool : Bool → Json
  | num : Int → Json
  | str : String → Json
  | arr : List Json → Json
  | obj : List (String × Json) → Json

/-- Field lookup on a JSON object (first binding wins, as in a JS object
literal with distinct keys). -/
def Json.getField : Json → String → Option Json
  | Json.obj kvs, k => kvs.lookup k
  | _, _ => none

/-- Boolean test: field `k` of `j` is the string `v`. -/
def Json.fieldIsStr (j : Json) (k v : String) : Bool :=
  match j.getField k with
  | some (Json.str s) => s == v
  | _ => false

/-- Boolean test: the `symbols` field of `j` is an array containing an
object whose `symbol` field is `sym` and whose `status` field is `st`. -/
def Json.symbolsContains (j : Json) (sym st : String) : Bool :=
  match j.getField "symbols" with
  | some (Json.arr xs) => xs.any (fun e => e.fieldIsStr "symbol" sym && e.fieldIsStr "status" st)
  | _ => false

/-- A thrown JavaScript `Error`, identified by its message (the code only
ever inspects `error.message`). -/
structure JsError where
  message : String
deriving DecidableEq

/-- Outcome of one outbound HTTP request: either a response with a status
code, status text and parsed JSON body, or a thrown network-layer error
(e.g. the undici message "fetch failed", or the abort-timeout message
"The operation was aborted due to timeout"). -/
inductive Outcome where
  | resp : Nat → String → Json → Outcome
  | netErr : String → Outcome

/-- The provider an outbound request is addressed to. -/
inductive Provider where
  | binance : Provider
  | coingecko : Provider
  | lcx : Provider
deriving DecidableEq, BEq

/-- A record of one outbound request: target provider and URL. -/
structure Request where
  provider : Provider
  url : String

/-- State threaded through a fetch operation: the world (outcome of the
n-th outbound request of this operation), the index of the next request,
and the log of requests issued so far. -/
structure FetchState where
  world : Nat → Outcome
  idx : Nat
  log : List Request

/-- Issue one outbound HTTP request: consume the next world outcome and
record the request. -/
def doFetch (p : Provider) (u : String) (s : FetchState) : Outcome × FetchState :=
  (s.world s.idx, ⟨s.world, s.idx + 1, s.log ++ [⟨p, u⟩]⟩)

/-- Number of requests in a log addressed to provider `p`. -/
def countReqs (p : Provider) (log : List Request) : Nat :=
  (log.filter (fun r => r.provider == p)).length

/-- Initial state over a given world: no request issued yet. -/
def initState (w : Nat → Outcome) : FetchState := ⟨w, 0, []⟩

/-- JavaScript `response.ok`: status in the inclusive range 200–299. -/
def responseOk (status : Nat) : Bool := 200 ≤ status && status ≤ 299

/-- Case-sensitive prefix test on character lists. -/
def charsPrefixMatch : List Char → List Char → Bool
  | [], _ => true
  | _ :: _, [] => false
  | a :: as, b :: bs => a == b && charsPrefixMatch as bs

/-- Helper for `strContains`: does `needle` occur in the haystack? -/
def strContainsAux (needle : List Char) : List Char → Bool
  | [] => needle.isEmpty
  | c :: cs => charsPrefixMatch needle (c :: cs) || strContainsAux needle cs

/-- JavaScript `hay.includes(needle)` (case-sensitive substring test). -/
def strContains (hay needle : String) : Bool :=
  strContainsAux needle.data hay.data

/-- JavaScript `s.toLowerCase()` on ASCII data, modelled character by
character (the core byte-based `String.map` does not reduce in the
kernel, so the character-list form is used throughout). -/
def jsToLower (s : String) : String := String.mk (s.data.map Char.toLower)

/-- JavaScript `s.toUpperCase()` on ASCII data, character by character. -/
def jsToUpper (s : String) : String := String.mk (s.data.map Char.toUpper)

/-- Case-insensitive character equality (via upper-casing, as a JS
case-insensitive regex behaves on ASCII). -/
def ciCharEq (a b : Char) : Bool := a.toUpper == b.toUpper

/-- Case-insensitive prefix test on character lists. -/
def ciPrefixMatch : List Char → List Char → Bool
  | [], _ => true
  | _ :: _, [] => false
  | a :: as, b :: bs => ciCharEq a b && ciPrefixMatch as bs

/-- Attempt to match the regex `/USDT|BUSD|BNB$/i` at the head of `l`,
returning the length of the match.  Alternatives are tried in source
order; the `$` anchor binds only to the `BNB` alternative, exactly as in
the JavaScript regex in `getCoinGeckoFallback`. -/
def reMatchAt (l : List Char) : Option Nat :=
  if ciPrefixMatch ['U', 'S', 'D', 'T'] l then some 4
  else if ciPrefixMatch ['B', 'U', 'S', 'D'] l then some 4
  else if ciPrefixMatch ['B', 'N', 'B'] l && l.length == 3 then some 3
  else none

/-- JavaScript `symbol.replace(/USDT|BUSD|BNB$/i, '')`: remove the
leftmost match of the regex (non-global replace), scanning left to
right. -/
def stripQuoteRegex : List Char → List Char
  | [] => []
  | c :: cs =>
    match reMatchAt (c :: cs) with
    | some n => (c :: cs).drop n
    | none => c :: stripQuoteRegex cs

/-- Symbol-to-CoinGecko-id conversion from `getCoinGeckoFallback`:
`symbol.replace(/USDT|BUSD|BNB$/i, '').toLowerCase()`. -/
def toCoinGeckoId (symbol : String) : String :=
  jsToLower (String.mk (stripQuoteRegex symbol.data))

/-- Request kind passed to `getCoinGeckoFallback` (the TypeScript union
type `'ticker' | 'orderbook' | 'trades'`). -/
inductive FType where
  | ticker : FType
  | orderbook : FType
  | trades : FType
deriving DecidableEq

/-- String rendering of an `FType`, as interpolated into the stub
message. -/
def FType.toStr : FType → String
  | FType.ticker => "ticker"
  | FType.orderbook => "orderbook"
  | FType.trades => "trades"

/-- CoinGecko simple-price URL built by `getCoinGeckoFallback`. -/
def coingeckoUrl (baseSymbol : String) : String :=
  "https://api.coingecko.com/api/v3/simple/price?ids=" ++ baseSymbol ++
    "&vs_currencies=usd&include_24hr_change=true&include_24hr_vol=true&include_market_cap=true"

/-- JavaScript `data[baseSymbol]?.usd || 0` and friends: read a numeric
field of the entry for `baseSymbol`, defaulting to 0 when the entry or
field is missing or not a number (a numeric 0 is its own default). -/
def cgNumOr0 (body : Json) (baseSymbol field : String) : Json :=
  match body.getField baseSymbol with
  | some entry =>
    match entry.getField field with
    | some (Json.num q) => Json.num q
    | _ => Json.num 0
  | none => Json.num 0

/-- The Binance-shaped ticker object built by `getCoinGeckoFallback` from
a successful CoinGecko response body. -/
def coingeckoTickerJson (symbol baseSymbol : String) (body : Json) : Json :=
  Json.obj [
    ("symbol", Json.str symbol),
    ("priceChange", cgNumOr0 body baseSymbol "usd_24h_change"),
    ("priceChangePercent", cgNumOr0 body baseSymbol "usd_24h_change"),
    ("weightedAvgPrice", cgNumOr0 body baseSymbol "usd"),
    ("prevClosePrice", cgNumOr0 body baseSymbol "usd"),
    ("lastPrice", cgNumOr0 body baseSymbol "usd"),
    ("volume", cgNumOr0 body baseSymbol "usd_24h_vol"),
    ("quoteVolume", cgNumOr0 body baseSymbol "usd_24h_vol"),
    ("openPrice", cgNumOr0 body baseSymbol "usd"),
    ("highPrice", cgNumOr0 body baseSymbol "usd"),
    ("lowPrice", cgNumOr0 body baseSymbol "usd"),
    ("count", Json.num 0),
    ("source", Json.str "CoinGecko (Fallback)")]

/-- The stub object `getCoinGeckoFallback` returns for non-ticker request
kinds: symbol, a "not available" message, and the fallback source tag. -/
def fallbackStub (symbol : String) (t : FType) : Json :=
  Json.obj [
    ("symbol", Json.str symbol),
    ("message", Json.str (t.toStr ++ " data not available via fallback API")),
    ("source", Json.str "CoinGecko (Fallback)")]

/-- Error message thrown by `getCoinGeckoFallback` on a non-ok CoinGecko
response. -/
def cgErrMsg (status : Nat) (text : String) : String :=
  "CoinGecko API error: " ++ toString status ++ " " ++ text

/-- Error message thrown by the Binance wrappers on a non-ok, non-451
response. -/
def binanceErrMsg (status : Nat) (text : String) : String :=
  "Binance API error: " ++ toString status ++ " " ++ text

/-- Model of `getCoinGeckoFallback(symbol, type)`.  For `'ticker'` it
issues one GET to the CoinGecko simple-price endpoint and either returns
the reshaped Binance-format object or throws; for `'orderbook'` and
`'trades'` it returns the stub object without issuing any request.  The
surrounding try/catch in the source logs and rethrows, so it is the
identity on errors. -/
def getCoinGeckoFallback (symbol : String) (t : FType) (s : FetchState) :
    Except JsError Json × FetchState :=
  match t with
  | FType.ticker =>
    match doFetch Provider.coingecko (coingeckoUrl (toCoinGeckoId symbol)) s with
    | (Outcome.netErr msg, s1) => (Except.error ⟨msg⟩, s1)
    | (Outcome.resp status text body, s1) =>
      if responseOk status then
        (Except.ok (coingeckoTickerJson symbol (toCoinGeckoId symbol) body), s1)
      else
        (Except.error ⟨cgErrMsg status text⟩, s1)
  | FType.orderbook => (Except.ok (fallbackStub symbol FType.orderbook), s)
  | FType.trades => (Except.ok (fallbackStub symbol FType.trades), s)

/-- Model of the catch block shared (verbatim, per copy) by
`getBinanceTicker` / `getBinanceOrderBook` / `getBinanceTrades` /
`getBinanceKlines`: if the caught error's message contains "451" or
"fetch", attempt `getCoinGeckoFallback` with the given kind, returning
its value on success and rethrowing the ORIGINAL error (not the fallback
error) on failure; otherwise rethrow the original error. -/
def catchFallback (symbol : String) (t : FType) (e : JsError) (s : FetchState) :
    Except JsError Json × FetchState :=
  if strContains e.message "451" || strContains e.message "fetch" then
    match getCoinGeckoFallback symbol t s with
    | (Except.ok v, s1) => (Except.ok v, s1)
    | (Except.error _, s1) => (Except.error e, s1)
  else
    (Except.error e, s)

/-- Binance 24hr-ticker URL. -/
def binanceTickerUrl (symbol : String) : String :=
  "https://api.binance.com/api/v3/ticker/24hr?symbol=" ++ symbol

/-- Model of `getBinanceTicker(symbol)`: one GET to Binance; on status
451 call the fallback inside the try block (so a fallback failure falls
through to the catch block with the FALLBACK error as the caught error);
on a 2xx return the parsed body as-is; on any other status throw the
`Binance API error` message into the catch block; a network error also
lands in the catch block. -/
def getBinanceTicker (symbol : String) (s : FetchState) :
    Except JsError Json × FetchState :=
  match doFetch Provider.binance (binanceTickerUrl symbol) s with
  | (Outcome.resp status text body, s1) =>
    if status == 451 then
      match getCoinGeckoFallback symbol FType.ticker s1 with
      | (Except.ok v, s2) => (Except.ok v, s2)
      | (Except.error e, s2) => catchFallback symbol FType.ticker e s2
    else if responseOk status then
      (Except.ok body, s1)
    else
      catchFallback symbol FType.ticker ⟨binanceErrMsg status text⟩ s1
  | (Outcome.netErr msg, s1) => catchFallback symbol FType.ticker ⟨msg⟩ s1

/-- Run `getBinanceTicker` over a world, starting from the empty log. -/
def runTicker (symbol : String) (w : Nat → Outcome) :
    Except JsError Json × FetchState :=
  getBinanceTicker symbol (initState w)

/-- Binance order-book (depth) URL. -/
def binanceDepthUrl (symbol : String) (limit : Nat) : String :=
  "https://api.binance.com/api/v3/depth?symbol=" ++ symbol ++ "&limit=" ++ toString limit

/-- Model of `getBinanceOrderBook(symbol, limit)`: identical control flow
to `getBinanceTicker` but the fallback kind is `'orderbook'`. -/
def getBinanceOrderBook (symbol : String) (limit : Nat) (s : FetchState) :
    Except JsError Json × FetchState :=
  match doFetch Provider.binance (binanceDepthUrl symbol limit) s with
  | (Outcome.resp status text body, s1) =>
    if status == 451 then
      match getCoinGeckoFallback symbol FType.orderbook s1 with
      | (Except.ok v, s2) => (Except.ok v, s2)
      | (Except.error e, s2) => catchFallback symbol FType.orderbook e s2
    else if responseOk status then
      (Except.ok body, s1)
    else
      catchFallback symbol FType.orderbook ⟨binanceErrMsg status text⟩ s1
  | (Outcome.netErr msg, s1) => catchFallback symbol FType.orderbook ⟨msg⟩ s1

/-- Binance trades URL. -/
def binanceTradesUrl (symbol : String) (limit : Nat) : String :=
  "https://api.binance.com/api/v3/trades?symbol=" ++ symbol ++ "&limit=" ++ toString limit

/-- Model of `getBinanceTrades(symbol, limit)`: identical control flow to
`getBinanceTicker` but the fallback kind is `'trades'`. -/
def getBinanceTrades (symbol : String) (limit : Nat) (s : FetchState) :
    Except JsError Json × FetchState :=
  match doFetch Provider.binance (binanceTradesUrl symbol limit) s with
  | (Outcome.resp status text body, s1) =>
    if status == 451 then
      match getCoinGeckoFallback symbol FType.trades s1 with
      | (Except.ok v, s2) => (Except.ok v, s2)
      | (Except.error e, s2) => catchFallback symbol FType.trades e s2
    else if responseOk status then
      (Except.ok body, s1)
    else
      catchFallback symbol FType.trades ⟨binanceErrMsg status text⟩ s1
  | (Outcome.netErr msg, s1) => catchFallback symbol FType.trades ⟨msg⟩ s1

/-- Binance klines URL. -/
def binanceKlinesUrl (symbol interval : String) (limit : Nat) : String :=
  "https://api.binance.com/api/v3/klines?symbol=" ++ symbol ++ "&interval=" ++ interval ++
    "&limit=" ++ toString limit

/-- Model of `getBinanceKlines(symbol, interval, limit)`: identical
control flow to `getBinanceTicker`; note that BOTH fallback call sites in
the source pass `'ticker'` as the kind, so a klines request that falls
back receives the ticker-shaped fallback object. -/
def getBinanceKlines (symbol interval : String) (limit : Nat) (s : FetchState) :
    Except JsError Json × FetchState :=
  match doFetch Provider.binance (binanceKlinesUrl symbol interval limit) s with
  | (Outcome.resp status text body, s1) =>
    if status == 451 then
      match getCoinGeckoFallback symbol FType.ticker s1 with
      | (Except.ok v, s2) => (Except.ok v, s2)
      | (Except.error e, s2) => catchFallback symbol FType.ticker e s2
    else if responseOk status then
      (Except.ok body, s1)
    else
      catchFallback symbol FType.ticker ⟨binanceErrMsg status text⟩ s1
  | (Outcome.netErr msg, s1) => catchFallback symbol FType.ticker ⟨msg⟩ s1

/-- One entry of the static exchange-info fallback list. -/
def fbSymbolJson (sym base : String) : Json :=
  Json.obj [
    ("symbol", Json.str sym),
    ("baseAsset", Json.str base),
    ("quoteAsset", Json.str "USDT"),
    ("status", Json.str "TRADING")]

/-- The static built-in exchange-info object returned by
`getBinanceExchangeInfo` when Binance is blocked or unreachable. -/
def fallbackExchangeInfo : Json :=
  Json.obj [
    ("symbols", Json.arr [
      fbSymbolJson "BTCUSDT" "BTC",
      fbSymbolJson "ETHUSDT" "ETH",
      fbSymbolJson "BNBUSDT" "BNB",
      fbSymbolJson "ADAUSDT" "ADA",
      fbSymbolJson "SOLUSDT" "SOL",
      fbSymbolJson "DOTUSDT" "DOT",
      fbSymbolJson "MATICUSDT" "MATIC",
      fbSymbolJson "LINKUSDT" "LINK",
      fbSymbolJson "UNIUSDT" "UNI",
      fbSymbolJson "AVAXUSDT" "AVAX"]),
    ("source", Json.str "Fallback (Binance API blocked)")]

/-- Model of the catch block of `getBinanceExchangeInfo`: if the caught
error's message contains "451" or "fetch", return the static fallback
exchange info; otherwise rethrow. -/
def exchangeInfoCatch (e : JsError) (s : FetchState) :
    Except JsError Json × FetchState :=
  if strContains e.message "451" || strContains e.message "fetch" then
    (Except.ok fallbackExchangeInfo, s)
  else
    (Except.error e, s)

/-- Model of `getBinanceExchangeInfo()`: one GET to Binance; on status
451 return the static fallback list directly; on 2xx return the body
as-is; other statuses and network errors go through the catch block. -/
def getBinanceExchangeInfo (s : FetchState) : Except JsError Json × FetchState :=
  match doFetch Provider.binance "https://api.binance.com/api/v3/exchangeInfo" s with
  | (Outcome.resp status text body, s1) =>
    if status == 451 then
      (Except.ok fallbackExchangeInfo, s1)
    else if responseOk status then
      (Except.ok body, s1)
    else
      exchangeInfoCatch ⟨binanceErrMsg status text⟩ s1
  | (Outcome.netErr msg, s1) => exchangeInfoCatch ⟨msg⟩ s1

/-- Run `getBinanceOrderBook` over a world from the empty log. -/
def runOrderBook (symbol : String) (limit : Nat) (w : Nat → Outcome) :
    Except JsError Json × FetchState :=
  getBinanceOrderBook symbol limit (initState w)

/-- Run `getBinanceTrades` over a world from the empty log. -/
def runTrades (symbol : String) (limit : Nat) (w : Nat → Outcome) :
    Except JsError Json × FetchState :=
  getBinanceTrades symbol limit (initState w)

/-- Run `getBinanceKlines` over a world from the empty log. -/
def runKlines (symbol interval : String) (limit : Nat) (w : Nat → Outcome) :
    Except JsError Json × FetchState :=
  getBinanceKlines symbol interval limit (initState w)

/-- Run `getBinanceExchangeInfo` over a world from the empty log. -/
def runExchangeInfo (w : Nat → Outcome) : Except JsError Json × FetchState :=
  getBinanceExchangeInfo (initState w)

/-- The LCX ticker request issued by `getTicker(pair)` (axios GET with a
`pair` query parameter). -/
def lcxReq (pair : String) : Request :=
  ⟨Provider.lcx, "https://exchange-api.lcx.com/api/ticker?pair=" ++ pair⟩

/-- Model of the LCX `getTicker(pair)` applied to the outcome of its one
axios GET: axios resolves with `res.data` on a 2xx status and rejects
with `Request failed with status code N` otherwise (default
`validateStatus`); a network failure rejects with its own message. -/
def lcxGetTicker (o : Outcome) : Except JsError Json :=
  match o with
  | Outcome.netErr msg => Except.error ⟨msg⟩
  | Outcome.resp status _ body =>
    if 200 ≤ status && status < 300 then Except.ok body
    else Except.error ⟨"Request failed with status code " ++ toString status⟩

/-- One element of the per-pair result array built inside `getTickers`:
either `{ pair, success: true, data }` or
`{ pair, success: false, error }`. -/
structure BulkEntry where
  pair : String
  success : Bool
  data : Option Json
  err : Option String

/-- The per-pair result array of `getTickers`: the i-th pair's single
request consumes the i-th outcome of the world (the calls run
concurrently but `Promise.all` keeps input order, so results are
positional). -/
def mkResults (w : Nat → Outcome) : Nat → List String → List BulkEntry
  | _, [] => []
  | i, pair :: rest =>
    (match lcxGetTicker (w i) with
     | Except.ok d => { pair := pair, success := true, data := some d, err := none }
     | Except.error e => { pair := pair, success := false, data := none, err := some e.message })
    :: mkResults w (i + 1) rest

/-- The value returned by `getTickers` (the `data` object plus the outer
`success`/`source` fields), together with the log of issued requests. -/
structure BulkResult where
  successful : List BulkEntry
  failed : List BulkEntry
  total : Nat
  successfulCount : Nat
  failedCount : Nat
  success : Bool
  source : String
  log : List Request

/-- Model of the LCX `getTickers(pairs)`: one `getTicker` call per pair,
each wrapped in its own try/catch so one pair's failure never rejects the
batch; successes and failures are partitioned by the `success` flag and
returned together with counts.  The outer try/catch never fires because
every per-pair rejection is already caught inside the map callback. -/
def getTickers (pairs : List String) (w : Nat → Outcome) : BulkResult :=
  let results := mkResults w 0 pairs
  let successful := results.filter (fun r => r.success)
  let failed := results.filter (fun r => !r.success)
  { successful := successful
    failed := failed
    total := results.length
    successfulCount := successful.length
    failedCount := failed.length
    success := true
    source := "LCX Exchange API"
    log := pairs.map lcxReq }

/-- One entry of the LCX pairs list as consumed by `findExactPair`
(`pairsData.data`), keeping only the `Symbol` field the helper reads. -/
structure PairEntry where
  Symbol : String
deriving DecidableEq

/-- JavaScript `userInput.toUpperCase().replace(/\s+/g, '')`: upper-case,
then remove every whitespace character. -/
def normalizeInput (userInput : String) : String :=
  String.mk (((jsToUpper userInput).data).filter (fun c => !c.isWhitespace))

/-- JavaScript `s.replace('/', '')` with a string pattern: remove only
the FIRST occurrence of the slash. -/
def replaceFirstSlash (s : String) : String :=
  String.mk (removeFirstSlashAux s.data)
where
  removeFirstSlashAux : List Char → List Char
    | [] => []
    | c :: cs => if c == '/' then cs else c :: removeFirstSlashAux cs

/-- The exact-match predicate of `findExactPair`: the pair symbol equals
the raw upper-cased input OR the normalized (whitespace-stripped) input. -/
def exactPred (userInput : String) (p : PairEntry) : Bool :=
  p.Symbol == jsToUpper userInput || p.Symbol == normalizeInput userInput

/-- The partial-match predicate of `findExactPair`: the pair symbol
contains the normalized input, or the normalized input contains the pair
symbol with its first slash removed. -/
def partialPred (userInput : String) (p : PairEntry) : Bool :=
  strContains p.Symbol (normalizeInput userInput) ||
    strContains (normalizeInput userInput) (replaceFirstSlash p.Symbol)

/-- Model of `findExactPair(userInput)` applied to the outcome of its
`getPairs()` call (modelled as the parsed pairs list, `pairsData.data ||
[]`): first pair satisfying the exact-match predicate, else first pair
satisfying the partial-match predicate, else null; any thrown error is
caught and yields null. -/
def findExactPair (userInput : String) (o : Except JsError (List PairEntry)) :
    Option String :=
  match o with
  | Except.error _ => none
  | Except.ok pairs =>
    match pairs.find? (exactPred userInput) with
    | some p => some p.Symbol
    | none =>
      match pairs.find? (partialPred userInput) with
      | some p => some p.Symbol
      | none => none

/-- Claim-side procedure for C8, following the claim's words: normalize
the input (upper-case, strip whitespace), return the first pair whose
symbol equals the NORMALIZED input exactly, else the first pair found by
the substring matching, else null. -/
def claimC8Procedure (userInput : String) (o : Except JsError (List PairEntry)) :
    Option String :=
  match o with
  | Except.error _ => none
  | Except.ok pairs =>
    match pairs.find? (fun p => p.Symbol == normalizeInput userInput) with
    | some p => some p.Symbol
    | none =>
      match pairs.find? (partialPred userInput) with
      | some p => some p.Symbol
      | none => none

/-- Claim-side conversion for C9, following the claim's words: strip a
known quote-asset suffix (USDT, BUSD, or BNB) from the END of the symbol
and lower-case the remainder; a symbol without such a suffix is only
lower-cased (occurrences that are not a suffix are left intact). -/
def suffixStripSpec (symbol : String) : String :=
  if ciEndsWith symbol.data ['U', 'S', 'D', 'T'] then
    jsToLower (String.mk (symbol.data.take (symbol.data.length - 4)))
  else if ciEndsWith symbol.data ['B', 'U', 'S', 'D'] then
    jsToLower (String.mk (symbol.data.take (symbol.data.length - 4)))
  else if ciEndsWith symbol.data ['B', 'N', 'B'] then
    jsToLower (String.mk (symbol.data.take (symbol.data.length - 3)))
  else
    jsToLower symbol
where
  ciEndsWith (l suf : List Char) : Bool :=
    ciPrefixMatch suf (l.drop (l.length - suf.length)) && suf.length ≤ l.length

/-- Test whether an outcome is a provider failure: a thrown network
error, or a response outside the 2xx range. -/
def outcomeFails (o : Outcome) : Bool :=
  match o with
  | Outcome.netErr _ => true
  | Outcome.resp status _ _ => !responseOk status

/-- A CoinGecko simple-price body carrying a price for `btc`, used as a
concrete successful fallback response in witnesses. -/
def cgBody : Json := Json.obj [("btc", Json.obj [("usd", Json.num 50000)])]

/-- Concrete world for the C1 counterexample: the primary response is
HTTP 451 and every CoinGecko request fails at the network layer with the
undici message "fetch failed". -/
def wC1cex : Nat → Outcome := fun n =>
  match n with
  | 0 => Outcome.resp 451 "Unavailable For Legal Reasons" Json.null
  | _ => Outcome.netErr "fetch failed"

/-- Concrete world for the C1 witness: primary 451, then a successful
CoinGecko response. -/
def wC1ok : Nat → Outcome := fun n =>
  match n with
  | 0 => Outcome.resp 451 "Unavailable For Legal Reasons" Json.null
  | _ => Outcome.resp 200 "OK" cgBody

/-- Concrete world for C2: the primary request fails at the network
layer; the fallback then succeeds. -/
def wC2cex : Nat → Outcome := fun n =>
  match n with
  | 0 => Outcome.netErr "fetch failed"
  | _ => Outcome.resp 200 "OK" cgBody

/-- Concrete world for the C3 counterexample: primary 451, fallback
CoinGecko responds 500. -/
def wC3cex : Nat → Outcome := fun n =>
  match n with
  | 0 => Outcome.resp 451 "Unavailable For Legal Reasons" Json.null
  | _ => Outcome.resp 500 "Internal Server Error" Json.null

/-- Concrete world for the C3 witness: primary network failure, fallback
CoinGecko responds 500. -/
def wC3net : Nat → Outcome := fun n =>
  match n with
  | 0 => Outcome.netErr "fetch failed"
  | _ => Outcome.resp 500 "Internal Server Error" Json.null

/-- Concrete world for the C4 counterexample: every request aborts with
the Node timeout message (which contains neither "451" nor "fetch"). -/
def wC4cex : Nat → Outcome := fun _ =>
  Outcome.netErr "The operation was aborted due to timeout"

/-- Concrete world for the C4 witness: primary 451, then a successful
CoinGecko response. -/
def wC4hit : Nat → Outcome := fun n =>
  match n with
  | 0 => Outcome.resp 451 "Unavailable For Legal Reasons" Json.null
  | _ => Outcome.resp 200 "OK" cgBody

/-- Concrete world for the C5 witness: the primary request succeeds. -/
def wC5ok : Nat → Outcome := fun _ =>
  Outcome.resp 200 "OK" (Json.str "payload")

/-- Concrete world for the C6 witness: Binance is unreachable (every
request fails with the undici message "fetch failed"). -/
def wC6net : Nat → Outcome := fun _ => Outcome.netErr "fetch failed"

/-- Concrete world for the C7 witness: the first pair's request succeeds
and every later request returns HTTP 404. -/
def wC7w : Nat → Outcome := fun n =>
  match n with
  | 0 => Outcome.resp 200 "OK" (Json.str "tick")
  | _ => Outcome.resp 404 "Not Found" Json.null

/-- Concrete world for the C10 witness: primary 451, then a successful
CoinGecko response. -/
def wC10w : Nat → Outcome := fun n =>
  match n with
  | 0 => Outcome.resp 451 "Unavailable For Legal Reasons" Json.null
  | _ => Outcome.resp 200 "OK" cgBody

/-- Provider discriminations used by the request-count lemmas. -/
@[simp] theorem beq_cg_bin : (Provider.coingecko == Provider.binance) = false := rfl

/-- Provider discrimination: binance vs binance. -/
@[simp] theorem beq_bin_bin : (Provider.binance == Provider.binance) = true := rfl

/-- Provider discrimination: binance vs coingecko. -/
@[simp] theorem beq_bin_cg : (Provider.binance == Provider.coingecko) = false := rfl

/-- Provider discrimination: coingecko vs coingecko. -/
@[simp] theorem beq_cg_cg : (Provider.coingecko == Provider.coingecko) = true := rfl

/-- Counting requests distributes over log concatenation. -/
theorem countReqs_append (p : Provider) (l1 l2 : List Request) :
    countReqs p (l1 ++ l2) = countReqs p l1 + countReqs p l2 := by
  simp [countReqs, List.filter_append]

/-- The CoinGecko fallback issues no Binance request: the Binance request
count of its final log equals that of its initial log. -/
theorem cgFallback_binance_count (symbol : String) (t : FType) (s : FetchState) :
    countReqs Provider.binance (getCoinGeckoFallback symbol t s).2.log
      = countReqs Provider.binance s.log := by
  cases t with
  | ticker =>
    simp only [getCoinGeckoFallback, doFetch]
    cases h : s.world s.idx with
    | resp status text body =>
      by_cases hok : responseOk status = true <;>
        simp [hok, countReqs_append, countReqs]
    | netErr msg => simp [countReqs_append, countReqs]
  | orderbook => rfl
  | trades => rfl

/-- The ticker-kind CoinGecko fallback issues exactly one CoinGecko
request. -/
theorem cgFallback_cg_count (symbol : String) (s : FetchState) :
    countReqs Provider.coingecko (getCoinGeckoFallback symbol FType.ticker s).2.log
      = countReqs Provider.coingecko s.log + 1 := by
  simp only [getCoinGeckoFallback, doFetch]
  cases h : s.world s.idx with
  | resp status text body =>
    by_cases hok : responseOk status = true <;>
      simp [hok, countReqs_append, countReqs]
  | netErr msg => simp [countReqs_append, countReqs]

/-- The catch-block fallback issues no Binance request. -/
theorem catchFallback_binance_count (symbol : String) (t : FType) (e : JsError)
    (s : FetchState) :
    countReqs Provider.binance (catchFallback symbol t e s).2.log
      = countReqs Provider.binance s.log := by
  have hcg := cgFallback_binance_count symbol t s
  simp only [catchFallback]
  by_cases hc : (strContains e.message "451" || strContains e.message "fetch") = true
  · rcases hres : getCoinGeckoFallback symbol t s with ⟨r, s1⟩
    rw [hres] at hcg
    cases r <;> simp [hc, hcg]
  · simp [hc]

/-- The final log of the CoinGecko fallback extends its initial log. -/
theorem cgFallback_log_ext (symbol : String) (t : FType) (s : FetchState) :
    ∃ ext, (getCoinGeckoFallback symbol t s).2.log = s.log ++ ext := by
  cases t with
  | ticker =>
    simp only [getCoinGeckoFallback, doFetch]
    cases h : s.world s.idx with
    | resp status text body =>
      by_cases hok : responseOk status = true <;> simp [hok]
    | netErr msg => simp
  | orderbook => exact ⟨[], by simp [getCoinGeckoFallback]⟩
  | trades => exact ⟨[], by simp [getCoinGeckoFallback]⟩

/-- The final log of the catch-block fallback extends its initial log. -/
theorem catchFallback_log_ext (symbol : String) (t : FType) (e : JsError)
    (s : FetchState) :
    ∃ ext, (catchFallback symbol t e s).2.log = s.log ++ ext := by
  simp only [catchFallback]
  by_cases hc : (strContains e.message "451" || strContains e.message "fetch") = true
  · rcases hres : getCoinGeckoFallback symbol t s with ⟨r, s1⟩
    have := cgFallback_log_ext symbol t s
    rw [hres] at this
    cases r <;> simpa [hc] using this
  · exact ⟨[], by simp [hc]⟩

/-- C5: for every symbol whose primary request returns an HTTP 2xx
response, `getBinanceTicker` returns the parsed JSON body of that
response unmodified, and the only request issued is the single primary
one (so no source field is added and no fallback is consulted). -/
theorem claim_C5_primary_ok (symbol : String) (w : Nat → Outcome)
    (status : Nat) (text : String) (body : Json)
    (h0 : w 0 = Outcome.resp status text body)
    (hok : responseOk status = true) :
    (runTicker symbol w).1 = Except.ok body ∧
    (runTicker symbol w).2.log = [⟨Provider.binance, binanceTickerUrl symbol⟩] := by
  have h451 : (status == 451) = false := by
    simp only [responseOk, Bool.and_eq_true, decide_eq_true_eq] at hok
    simp only [beq_eq_false_iff_ne, ne_eq]
    omega
  constructor <;>
    simp [runTicker, getBinanceTicker, initState, doFetch, h0, h451, hok]

/-- C5 witness: with a concrete 200 response carrying a string payload,
`getBinanceTicker` returns the payload itself and logs exactly one
Binance request. -/
theorem claim_C5_primary_ok_witness :
    (runTicker "BTCUSDT" wC5ok).1 = Except.ok (Json.str "payload") ∧
    (runTicker "BTCUSDT" wC5ok).2.log
      = [⟨Provider.binance, binanceTickerUrl "BTCUSDT"⟩] :=
  claim_C5_primary_ok "BTCUSDT" wC5ok 200 "OK" (Json.str "payload") rfl rfl

/-- C1 counterexample: with a primary 451 response and a CoinGecko
fallback that fails with the network message "fetch failed",
`getBinanceTicker` issues TWO requests to the secondary provider (the
fallback error re-enters the catch block, which tries the fallback
again) and returns an error rather than an object tagged with the
fallback source — so the claim fails as universally stated. -/
theorem claim_C1_counterexample :
    wC1cex 0 = Outcome.resp 451 "Unavailable For Legal Reasons" Json.null ∧
    countReqs Provider.coingecko (runTicker "BTCUSDT" wC1cex).2.log = 2 ∧
    (runTicker "BTCUSDT" wC1cex).1 = Except.error ⟨"fetch failed"⟩ :=
  ⟨rfl, rfl, rfl⟩

/-- C1 amended: for every ticker request whose primary response has
status 451 AND whose single fallback request succeeds (HTTP 2xx),
`getBinanceTicker` issues exactly one request to the secondary provider
and returns the reshaped object whose source field is
"CoinGecko (Fallback)". -/
theorem claim_C1_amended (symbol : String) (w : Nat → Outcome)
    (t1 : String) (b1 : Json) (status : Nat) (t2 : String) (b2 : Json)
    (h0 : w 0 = Outcome.resp 451 t1 b1)
    (h1 : w 1 = Outcome.resp status t2 b2)
    (hok : responseOk status = true) :
    (runTicker symbol w).1
      = Except.ok (coingeckoTickerJson symbol (toCoinGeckoId symbol) b2) ∧
    countReqs Provider.coingecko (runTicker symbol w).2.log = 1 ∧
    Json.fieldIsStr (coingeckoTickerJson symbol (toCoinGeckoId symbol) b2)
      "source" "CoinGecko (Fallback)" = true := by
  refine ⟨?_, ?_, rfl⟩ <;>
    simp [runTicker, getBinanceTicker, getCoinGeckoFallback, initState, doFetch,
      h0, h1, hok, countReqs_append, countReqs]

/-- C1 witness: concrete run of the amended claim with a 451 primary
response and a successful CoinGecko response. -/
theorem claim_C1_amended_witness :
    (runTicker "BTCUSDT" wC1ok).1
      = Except.ok (coingeckoTickerJson "BTCUSDT" (toCoinGeckoId "BTCUSDT") cgBody) ∧
    countReqs Provider.coingecko (runTicker "BTCUSDT" wC1ok).2.log = 1 ∧
    Json.fieldIsStr (coingeckoTickerJson "BTCUSDT" (toCoinGeckoId "BTCUSDT") cgBody)
      "source" "CoinGecko (Fallback)" = true :=
  claim_C1_amended "BTCUSDT" wC1ok "Unavailable For Legal Reasons" Json.null
    200 "OK" cgBody rfl rfl rfl

/-- C2 counterexample: on a primary network failure ("fetch failed"),
`getBinanceTicker` issues exactly ONE primary request — not the
retries + 1 = 3 the claim describes for the quoted bound of 2 — and the
fallback has already been attempted (one CoinGecko request), so no
primary retry happens at all. -/
theorem claim_C2_counterexample :
    wC2cex 0 = Outcome.netErr "fetch failed" ∧
    countReqs Provider.binance (runTicker "BTCUSDT" wC2cex).2.log = 1 ∧
    countReqs Provider.coingecko (runTicker "BTCUSDT" wC2cex).2.log = 1 :=
  ⟨rfl, rfl, rfl⟩

/-- C2 amended: the fetcher performs NO retries against the primary
provider: in every world `getBinanceTicker` issues exactly one Binance
request, and on a primary network failure whose message contains "fetch"
it proceeds immediately to the fallback (exactly one CoinGecko request
is then issued by the fallback attempt). -/
theorem claim_C2_amended (symbol : String) (w : Nat → Outcome) :
    countReqs Provider.binance (runTicker symbol w).2.log = 1 ∧
    (∀ m, w 0 = Outcome.netErr m → strContains m "fetch" = true →
      countReqs Provider.coingecko (runTicker symbol w).2.log = 1) := by
  constructor
  · simp only [runTicker, getBinanceTicker, initState, doFetch, Nat.zero_add,
      List.nil_append]
    cases h : w 0 with
    | resp status text body =>
      by_cases h451 : (status == 451) = true
      · simp only [h451, if_pos]
        rcases hgc : getCoinGeckoFallback symbol FType.ticker
            ⟨w, 1, [⟨Provider.binance, binanceTickerUrl symbol⟩]⟩ with ⟨r, s2⟩
        have hb := cgFallback_binance_count symbol FType.ticker
            ⟨w, 1, [⟨Provider.binance, binanceTickerUrl symbol⟩]⟩
        rw [hgc] at hb
        cases r with
        | ok v => simpa [countReqs] using hb
        | error e =>
          have hc := catchFallback_binance_count symbol FType.ticker e s2
          simp only [countReqs] at hb hc ⊢
          rw [hc, hb]
          simp [countReqs]
      · by_cases hok : responseOk status = true
        · simp [h451, hok, countReqs]
        · have hc := catchFallback_binance_count symbol FType.ticker
              ⟨binanceErrMsg status text⟩
              ⟨w, 1, [⟨Provider.binance, binanceTickerUrl symbol⟩]⟩
          simp only [h451, hok, Bool.false_eq_true, if_false]
          simp only [countReqs] at hc ⊢
          rw [hc]
          simp [countReqs]
    | netErr msg =>
      have hc := catchFallback_binance_count symbol FType.ticker ⟨msg⟩
          ⟨w, 1, [⟨Provider.binance, binanceTickerUrl symbol⟩]⟩
      simp only [countReqs] at hc ⊢
      rw [hc]
      simp [countReqs]
  · intro m h0 hm
    simp only [runTicker, getBinanceTicker, initState, doFetch, h0, catchFallback,
      hm, Bool.or_true, if_pos, Nat.zero_add, List.nil_append]
    rcases hgc : getCoinGeckoFallback symbol FType.ticker
        ⟨w, 1, [⟨Provider.binance, binanceTickerUrl symbol⟩]⟩ with ⟨r, s2⟩
    have hg := cgFallback_cg_count symbol
        ⟨w, 1, [⟨Provider.binance, binanceTickerUrl symbol⟩]⟩
    rw [hgc] at hg
    cases r <;> simpa [countReqs] using hg

/-- C2 witness: concrete run of the amended claim on a world whose
primary request fails at the network layer. -/
theorem claim_C2_amended_witness :
    countReqs Provider.binance (runTicker "BTCUSDT" wC2cex).2.log = 1 ∧
    countReqs Provider.coingecko (runTicker "BTCUSDT" wC2cex).2.log = 1 :=
  ⟨(claim_C2_amended "BTCUSDT" wC2cex).1,
    (claim_C2_amended "BTCUSDT" wC2cex).2 "fetch failed" rfl rfl⟩

/-- C3 counterexample: primary ticker response 451, CoinGecko fallback
responds 500.  The operation surfaces the RAW fallback exception
("CoinGecko API error: 500 Internal Server Error") — there is no
`DataUnavailable` error identifying both providers, and the caller does
observe the raw fallback exception. -/
theorem claim_C3_counterexample :
    wC3cex 0 = Outcome.resp 451 "Unavailable For Legal Reasons" Json.null ∧
    wC3cex 1 = Outcome.resp 500 "Internal Server Error" Json.null ∧
    (runTicker "BTCUSDT" wC3cex).1
      = Except.error ⟨"CoinGecko API error: 500 Internal Server Error"⟩ :=
  ⟨rfl, rfl, rfl⟩

/-- C3 amended: when the primary request fails at the network layer
(message containing "fetch") and the fallback also fails, the ticker and
klines operations rethrow the ORIGINAL primary error (no
`DataUnavailable` error exists; on this path the raw fallback exception
is suppressed, though on the 451 path it is the raw fallback exception
itself that propagates); order-book and trades requests cannot fail in
the fallback at all — their fallback is the request-free stub, which is
returned successfully. -/
theorem claim_C3_amended (symbol interval : String) (limit : Nat)
    (w : Nat → Outcome) (m : String)
    (h0 : w 0 = Outcome.netErr m)
    (hm : strContains m "fetch" = true)
    (hfb : outcomeFails (w 1) = true) :
    (runTicker symbol w).1 = Except.error ⟨m⟩ ∧
    (runKlines symbol interval limit w).1 = Except.error ⟨m⟩ ∧
    (runOrderBook symbol limit w).1 = Except.ok (fallbackStub symbol FType.orderbook) ∧
    (runTrades symbol limit w).1 = Except.ok (fallbackStub symbol FType.trades) := by
  refine ⟨?_, ?_, ?_, ?_⟩
  · simp only [runTicker, getBinanceTicker, initState, doFetch, h0, catchFallback,
      hm, Bool.or_true, if_pos, Nat.zero_add, List.nil_append]
    cases h1 : w 1 with
    | resp status text body =>
      have : responseOk status = false := by
        simpa [outcomeFails, h1] using hfb
      simp [getCoinGeckoFallback, doFetch, h1, this]
    | netErr msg2 => simp [getCoinGeckoFallback, doFetch, h1]
  · simp only [runKlines, getBinanceKlines, initState, doFetch, h0, catchFallback,
      hm, Bool.or_true, if_pos, Nat.zero_add, List.nil_append]
    cases h1 : w 1 with
    | resp status text body =>
      have : responseOk status = false := by
        simpa [outcomeFails, h1] using hfb
      simp [getCoinGeckoFallback, doFetch, h1, this]
    | netErr msg2 => simp [getCoinGeckoFallback, doFetch, h1]
  · simp [runOrderBook, getBinanceOrderBook, initState, doFetch, h0, catchFallback,
      hm, getCoinGeckoFallback]
  · simp [runTrades, getBinanceTrades, initState, doFetch, h0, catchFallback,
      hm, getCoinGeckoFallback]

/-- C3 witness: concrete run of the amended claim with a primary network
failure and a CoinGecko 500 response. -/
theorem claim_C3_amended_witness :
    (runTicker "BTCUSDT" wC3net).1 = Except.error ⟨"fetch failed"⟩ ∧
    (runKlines "BTCUSDT" "1d" 100 wC3net).1 = Except.error ⟨"fetch failed"⟩ ∧
    (runOrderBook "BTCUSDT" 100 wC3net).1
      = Except.ok (fallbackStub "BTCUSDT" FType.orderbook) ∧
    (runTrades "BTCUSDT" 100 wC3net).1
      = Except.ok (fallbackStub "BTCUSDT" FType.trades) :=
  claim_C3_amended "BTCUSDT" "1d" 100 wC3net "fetch failed" rfl rfl rfl

/-- C4 counterexample: a primary request that exceeds its timeout bound
throws the Node abort message "The operation was aborted due to
timeout", which contains neither "451" nor "fetch"; `getBinanceTicker`
and `getBinanceKlines` then propagate the error WITHOUT invoking the
fallback path (zero CoinGecko requests) — so timeout errors do not
trigger the fallback, contrary to the claim. -/
theorem claim_C4_counterexample :
    wC4cex 0 = Outcome.netErr "The operation was aborted due to timeout" ∧
    (runTicker "BTCUSDT" wC4cex).1
      = Except.error ⟨"The operation was aborted due to timeout"⟩ ∧
    countReqs Provider.coingecko (runTicker "BTCUSDT" wC4cex).2.log = 0 ∧
    (runKlines "BTCUSDT" "1d" 100 wC4cex).1
      = Except.error ⟨"The operation was aborted due to timeout"⟩ ∧
    countReqs Provider.coingecko (runKlines "BTCUSDT" "1d" 100 wC4cex).2.log = 0 :=
  ⟨rfl, rfl, rfl, rfl, rfl⟩

/-- C4 amended: the ticker and klines operations invoke the fallback
path (at least one CoinGecko request is issued) on a primary HTTP 451
response, and on a primary network error whose message contains "451" or
"fetch"; timeout errors, whose message contains neither substring, are
propagated without invoking the fallback (shown by the counterexample). -/
theorem claim_C4_amended (symbol interval : String) (limit : Nat)
    (w : Nat → Outcome) :
    (∀ t b, w 0 = Outcome.resp 451 t b →
      1 ≤ countReqs Provider.coingecko (runTicker symbol w).2.log) ∧
    (∀ t b, w 0 = Outcome.resp 451 t b →
      1 ≤ countReqs Provider.coingecko (runKlines symbol interval limit w).2.log) ∧
    (∀ m, w 0 = Outcome.netErr m →
      (strContains m "451" || strContains m "fetch") = true →
      1 ≤ countReqs Provider.coingecko (runTicker symbol w).2.log) ∧
    (∀ m, w 0 = Outcome.netErr m →
      (strContains m "451" || strContains m "fetch") = true →
      1 ≤ countReqs Provider.coingecko (runKlines symbol interval limit w).2.log) := by
  refine ⟨?_, ?_, ?_, ?_⟩
  · intro t b h0
    simp only [runTicker, getBinanceTicker, initState, doFetch, h0, Nat.zero_add,
      List.nil_append]
    simp only [show ((451 : Nat) == 451) = true from rfl, if_pos]
    rcases hgc : getCoinGeckoFallback symbol FType.ticker
        ⟨w, 1, [⟨Provider.binance, binanceTickerUrl symbol⟩]⟩ with ⟨r, s2⟩
    have hg := cgFallback_cg_count symbol
        ⟨w, 1, [⟨Provider.binance, binanceTickerUrl symbol⟩]⟩
    rw [hgc] at hg
    cases r with
    | ok v => simp only [countReqs] at hg ⊢; omega
    | error e =>
      obtain ⟨ext, hext⟩ := catchFallback_log_ext symbol FType.ticker e s2
      simp only [countReqs] at hg ⊢
      rw [hext, List.filter_append, List.length_append]
      omega
  · intro t b h0
    simp only [runKlines, getBinanceKlines, initState, doFetch, h0, Nat.zero_add,
      List.nil_append]
    simp only [show ((451 : Nat) == 451) = true from rfl, if_pos]
    rcases hgc : getCoinGeckoFallback symbol FType.ticker
        ⟨w, 1, [⟨Provider.binance, binanceKlinesUrl symbol interval limit⟩]⟩ with ⟨r, s2⟩
    have hg := cgFallback_cg_count symbol
        ⟨w, 1, [⟨Provider.binance, binanceKlinesUrl symbol interval limit⟩]⟩
    rw [hgc] at hg
    cases r with
    | ok v => simp only [countReqs] at hg ⊢; omega
    | error e =>
      obtain ⟨ext, hext⟩ := catchFallback_log_ext symbol FType.ticker e s2
      simp only [countReqs] at hg ⊢
      rw [hext, List.filter_append, List.length_append]
      omega
  · intro m h0 hm
    simp only [runTicker, getBinanceTicker, initState, doFetch, h0, catchFallback,
      hm, if_pos, Nat.zero_add, List.nil_append]
    rcases hgc : getCoinGeckoFallback symbol FType.ticker
        ⟨w, 1, [⟨Provider.binance, binanceTickerUrl symbol⟩]⟩ with ⟨r, s2⟩
    have hg := cgFallback_cg_count symbol
        ⟨w, 1, [⟨Provider.binance, binanceTickerUrl symbol⟩]⟩
    rw [hgc] at hg
    cases r <;> simp only [countReqs] at hg ⊢ <;> omega
  · intro m h0 hm
    simp only [runKlines, getBinanceKlines, initState, doFetch, h0, catchFallback,
      hm, if_pos, Nat.zero_add, List.nil_append]
    rcases hgc : getCoinGeckoFallback symbol FType.ticker
        ⟨w, 1, [⟨Provider.binance, binanceKlinesUrl symbol interval limit⟩]⟩ with ⟨r, s2⟩
    have hg := cgFallback_cg_count symbol
        ⟨w, 1, [⟨Provider.binance, binanceKlinesUrl symbol interval limit⟩]⟩
    rw [hgc] at hg
    cases r <;> simp only [countReqs] at hg ⊢ <;> omega

/-- C4 witness: concrete run of the amended claim with a 451 primary
response. -/
theorem claim_C4_amended_witness :
    1 ≤ countReqs Provider.coingecko (runTicker "BTCUSDT" wC4hit).2.log ∧
    1 ≤ countReqs Provider.coingecko (runKlines "BTCUSDT" "1d" 100 wC4hit).2.log :=
  ⟨(claim_C4_amended "BTCUSDT" "1d" 100 wC4hit).1
      "Unavailable For Legal Reasons" Json.null rfl,
    (claim_C4_amended "BTCUSDT" "1d" 100 wC4hit).2.1
      "Unavailable For Legal Reasons" Json.null rfl⟩

/-- C6: when the primary provider returns HTTP 451 or is unreachable
(the fetch call rejects with "fetch failed"), `getBinanceExchangeInfo`
returns — rather than throwing — the static built-in symbol list tagged
as fallback data, which contains BTCUSDT and ETHUSDT with status
TRADING. -/
theorem claim_C6_exchange_info (w : Nat → Outcome)
    (h : w 0 = Outcome.netErr "fetch failed" ∨
      ∃ t b, w 0 = Outcome.resp 451 t b) :
    (runExchangeInfo w).1 = Except.ok fallbackExchangeInfo ∧
    Json.symbolsContains fallbackExchangeInfo "BTCUSDT" "TRADING" = true ∧
    Json.symbolsContains fallbackExchangeInfo "ETHUSDT" "TRADING" = true ∧
    Json.fieldIsStr fallbackExchangeInfo "source" "Fallback (Binance API blocked)" = true := by
  refine ⟨?_, rfl, rfl, rfl⟩
  rcases h with h0 | ⟨t, b, h0⟩
  · simp [runExchangeInfo, getBinanceExchangeInfo, initState, doFetch, h0,
      exchangeInfoCatch, show strContains "fetch failed" "fetch" = true from rfl]
  · simp [runExchangeInfo, getBinanceExchangeInfo, initState, doFetch, h0]

/-- C6 witness: concrete run with Binance unreachable on every request. -/
theorem claim_C6_exchange_info_witness :
    (runExchangeInfo wC6net).1 = Except.ok fallbackExchangeInfo ∧
    Json.symbolsContains fallbackExchangeInfo "BTCUSDT" "TRADING" = true ∧
    Json.symbolsContains fallbackExchangeInfo "ETHUSDT" "TRADING" = true ∧
    Json.fieldIsStr fallbackExchangeInfo "source" "Fallback (Binance API blocked)" = true :=
  claim_C6_exchange_info wC6net (Or.inl rfl)

/-- C10: on the 451 fallback path, order-book and trades requests return
the stub object (symbol, a "not available" message, and the fallback
source tag) rather than throwing, while a klines request whose fallback
CoinGecko call succeeds returns the ticker-shaped fallback object, which
carries price fields and the source tag but no stub message. -/
theorem claim_C10_fallback_shapes (symbol interval : String) (limit : Nat)
    (w : Nat → Outcome) (t1 : String) (b1 : Json)
    (status : Nat) (t2 : String) (b2 : Json)
    (h0 : w 0 = Outcome.resp 451 t1 b1)
    (h1 : w 1 = Outcome.resp status t2 b2)
    (hok : responseOk status = true) :
    (runOrderBook symbol limit w).1 = Except.ok (fallbackStub symbol FType.orderbook) ∧
    (runTrades symbol limit w).1 = Except.ok (fallbackStub symbol FType.trades) ∧
    (fallbackStub symbol FType.orderbook).getField "message"
      = some (Json.str "orderbook data not available via fallback API") ∧
    (fallbackStub symbol FType.trades).getField "message"
      = some (Json.str "trades data not available via fallback API") ∧
    Json.fieldIsStr (fallbackStub symbol FType.orderbook) "source"
      "CoinGecko (Fallback)" = true ∧
    (runKlines symbol interval limit w).1
      = Except.ok (coingeckoTickerJson symbol (toCoinGeckoId symbol) b2) ∧
    (coingeckoTickerJson symbol (toCoinGeckoId symbol) b2).getField "message" = none ∧
    Json.fieldIsStr (coingeckoTickerJson symbol (toCoinGeckoId symbol) b2) "source"
      "CoinGecko (Fallback)" = true ∧
    (coingeckoTickerJson symbol (toCoinGeckoId symbol) b2).getField "lastPrice"
      = some (cgNumOr0 b2 (toCoinGeckoId symbol) "usd") := by
  refine ⟨?_, ?_, rfl, rfl, rfl, ?_, rfl, rfl, rfl⟩
  · simp [runOrderBook, getBinanceOrderBook, initState, doFetch, h0,
      getCoinGeckoFallback]
  · simp [runTrades, getBinanceTrades, initState, doFetch, h0,
      getCoinGeckoFallback]
  · simp [runKlines, getBinanceKlines, initState, doFetch, getCoinGeckoFallback,
      h0, h1, hok]

/-- C10 witness: concrete run with a 451 primary response and a
successful CoinGecko response. -/
theorem claim_C10_fallback_shapes_witness :
    (runOrderBook "BTCUSDT" 100 wC10w).1
      = Except.ok (fallbackStub "BTCUSDT" FType.orderbook) ∧
    (runTrades "BTCUSDT" 100 wC10w).1
      = Except.ok (fallbackStub "BTCUSDT" FType.trades) ∧
    (fallbackStub "BTCUSDT" FType.orderbook).getField "message"
      = some (Json.str "orderbook data not available via fallback API") ∧
    (fallbackStub "BTCUSDT" FType.trades).getField "message"
      = some (Json.str "trades data not available via fallback API") ∧
    Json.fieldIsStr (fallbackStub "BTCUSDT" FType.orderbook) "source"
      "CoinGecko (Fallback)" = true ∧
    (runKlines "BTCUSDT" "1d" 100 wC10w).1
      = Except.ok (coingeckoTickerJson "BTCUSDT" (toCoinGeckoId "BTCUSDT") cgBody) ∧
    (coingeckoTickerJson "BTCUSDT" (toCoinGeckoId "BTCUSDT") cgBody).getField "message"
      = none ∧
    Json.fieldIsStr (coingeckoTickerJson "BTCUSDT" (toCoinGeckoId "BTCUSDT") cgBody)
      "source" "CoinGecko (Fallback)" = true ∧
    (coingeckoTickerJson "BTCUSDT" (toCoinGeckoId "BTCUSDT") cgBody).getField "lastPrice"
      = some (cgNumOr0 cgBody (toCoinGeckoId "BTCUSDT") "usd") :=
  claim_C10_fallback_shapes "BTCUSDT" "1d" 100 wC10w
    "Unavailable For Legal Reasons" Json.null 200 "OK" cgBody rfl rfl rfl

/-- The per-pair result array preserves the input pairs in order
(each entry's `pair` field is the pair it was built from). -/
theorem mkResults_map_pair (w : Nat → Outcome) :
    ∀ (i : Nat) (ps : List String),
      (mkResults w i ps).map BulkEntry.pair = ps := by
  intro i ps
  induction ps generalizing i with
  | nil => rfl
  | cons p rest ih =>
    simp only [mkResults]
    cases lcxGetTicker (w i) <;> simp [ih]

/-- Every entry of the per-pair result array is either a success record
(flag set, data present, no error message) or a failure record (flag
clear, no data, error message present). -/
theorem mkResults_shape (w : Nat → Outcome) :
    ∀ (i : Nat) (ps : List String) (e : BulkEntry), e ∈ mkResults w i ps →
      (e.success = true ∧ e.data.isSome = true ∧ e.err = none) ∨
      (e.success = false ∧ e.data = none ∧ e.err.isSome = true) := by
  intro i ps
  induction ps generalizing i with
  | nil => intro e he; simp [mkResults] at he
  | cons p rest ih =>
    intro e he
    simp only [mkResults, List.mem_cons] at he
    rcases he with he | he
    · cases hres : lcxGetTicker (w i) with
      | ok d => rw [hres] at he; subst he; left; simp
      | error err2 => rw [hres] at he; subst he; right; simp
    · exact ih (i + 1) e he

/-- C7: the bulk ticker operation issues one request per input pair,
always returns successfully (one pair's failure never fails the batch),
partitions the input pairs exactly — the pair fields of the successful
and failed sets together are a permutation of the input list — and
satisfies successfulCount + failedCount = total = number of input pairs;
successful entries carry data and failed entries carry a per-symbol
error message. -/
theorem claim_C7_bulk_tickers (pairs : List String) (w : Nat → Outcome) :
    (getTickers pairs w).log = pairs.map lcxReq ∧
    (getTickers pairs w).log.length = pairs.length ∧
    (getTickers pairs w).success = true ∧
    ((getTickers pairs w).successful.map BulkEntry.pair ++
      (getTickers pairs w).failed.map BulkEntry.pair).Perm pairs ∧
    (getTickers pairs w).successfulCount + (getTickers pairs w).failedCount
      = (getTickers pairs w).total ∧
    (getTickers pairs w).total = pairs.length ∧
    (∀ e ∈ (getTickers pairs w).successful, e.success = true ∧ e.data.isSome = true) ∧
    (∀ e ∈ (getTickers pairs w).failed, e.success = false ∧ e.err.isSome = true) := by
  have hperm := List.filter_append_perm (fun r => r.success) (mkResults w 0 pairs)
  have hmap : (mkResults w 0 pairs).map BulkEntry.pair = pairs :=
    mkResults_map_pair w 0 pairs
  refine ⟨rfl, by simp [getTickers], rfl, ?_, ?_, ?_, ?_, ?_⟩
  · have := hperm.map BulkEntry.pair
    rw [List.map_append] at this
    simpa [getTickers, hmap] using this
  · have := hperm.length_eq
    simpa [getTickers] using this
  · have hlen := congrArg List.length hmap
    simpa [getTickers] using hlen
  · intro e he
    simp only [getTickers, List.mem_filter] at he
    rcases mkResults_shape w 0 pairs e he.1 with h | h
    · exact ⟨h.1, h.2.1⟩
    · rw [h.1] at he; exact absurd he.2 (by simp)
  · intro e he
    simp only [getTickers, List.mem_filter] at he
    rcases mkResults_shape w 0 pairs e he.1 with h | h
    · rw [h.1] at he; exact absurd he.2 (by simp)
    · exact ⟨h.1, h.2.2⟩

/-- C7 witness: the spec's concrete bulk example — one pair succeeds,
the other fails — instantiating the count equation of the theorem. -/
theorem claim_C7_bulk_tickers_witness :
    (getTickers ["BTCUSDT", "INVALIDXYZ"] wC7w).successfulCount +
        (getTickers ["BTCUSDT", "INVALIDXYZ"] wC7w).failedCount
      = (getTickers ["BTCUSDT", "INVALIDXYZ"] wC7w).total ∧
    (getTickers ["BTCUSDT", "INVALIDXYZ"] wC7w).total = 2 ∧
    (getTickers ["BTCUSDT", "INVALIDXYZ"] wC7w).successfulCount = 1 ∧
    (getTickers ["BTCUSDT", "INVALIDXYZ"] wC7w).failedCount = 1 :=
  ⟨(claim_C7_bulk_tickers ["BTCUSDT", "INVALIDXYZ"] wC7w).2.2.2.2.1, rfl, rfl, rfl⟩

/-- C8 counterexample: for input "btc usdt" and a fetched pairs list
containing only the symbol "BTC USDT" (with the whitespace intact),
`findExactPair` returns "BTC USDT" — because its exact match also
accepts the raw upper-cased input — whereas the procedure described by
the claim (exact match against the normalized input only, then the
substring match) returns null. -/
theorem claim_C8_counterexample :
    findExactPair "btc usdt" (Except.ok [⟨"BTC USDT"⟩]) = some "BTC USDT" ∧
    claimC8Procedure "btc usdt" (Except.ok [⟨"BTC USDT"⟩]) = none ∧
    normalizeInput "btc usdt" = "BTCUSDT" ∧
    ("BTC USDT" : String) ≠ "BTCUSDT" :=
  ⟨rfl, rfl, rfl, by decide⟩

/-- C8 amended: the helper normalizes the input by upper-casing and
stripping whitespace (so "btc usdt" becomes "BTCUSDT"); its exact match
accepts a pair symbol equal to EITHER the raw upper-cased input OR the
normalized input, returning the first such pair; otherwise it returns
the first pair matched by the substring test (symbol contains the
normalized input, or the normalized input contains the symbol with its
first slash removed); otherwise — and on any fetch error — it returns
null. -/
theorem claim_C8_amended :
    normalizeInput "btc usdt" = "BTCUSDT" ∧
    (∀ (u : String) (e : JsError), findExactPair u (Except.error e) = none) ∧
    (∀ (u : String) (ps : List PairEntry) (p : PairEntry),
      ps.find? (exactPred u) = some p →
        findExactPair u (Except.ok ps) = some p.Symbol) ∧
    (∀ (u : String) (ps : List PairEntry) (p : PairEntry),
      ps.find? (exactPred u) = none → ps.find? (partialPred u) = some p →
        findExactPair u (Except.ok ps) = some p.Symbol) ∧
    (∀ (u : String) (ps : List PairEntry),
      ps.find? (exactPred u) = none → ps.find? (partialPred u) = none →
        findExactPair u (Except.ok ps) = none) := by
  refine ⟨rfl, fun u e => rfl, ?_, ?_, ?_⟩
  · intro u ps p h
    simp [findExactPair, h]
  · intro u ps p hex hpa
    simp [findExactPair, hex, hpa]
  · intro u ps hex hpa
    simp [findExactPair, hex, hpa]

/-- C8 witness: the spec's own example resolved through the amended
claim — input "btc usdt" against a list containing "BTC/USDT" matches
via the substring test. -/
theorem claim_C8_amended_witness :
    findExactPair "btc usdt" (Except.ok [⟨"BTC/USDT"⟩]) = some "BTC/USDT" :=
  claim_C8_amended.2.2.2.1 "btc usdt" [⟨"BTC/USDT"⟩] ⟨"BTC/USDT"⟩ rfl rfl

/-- Structural lemma for C9: if the regex `/USDT|BUSD|BNB$/i` has no
match at any position before `k` and a match of length `n` at position
`k`, the non-global replace removes exactly that leftmost match. -/
theorem stripQuoteRegex_leftmost :
    ∀ (k : Nat) (l : List Char) (n : Nat),
      (∀ i, i < k → reMatchAt (l.drop i) = none) →
      reMatchAt (l.drop k) = some n →
      stripQuoteRegex l = l.take k ++ l.drop (k + n) := by
  intro k
  induction k with
  | zero =>
    intro l n _ hat
    cases l with
    | nil => exact absurd hat (by simp [reMatchAt, ciPrefixMatch])
    | cons c cs =>
      simp only [List.drop_zero] at hat
      simp [stripQuoteRegex, hat]
  | succ k ih =>
    intro l n hbefore hat
    cases l with
    | nil =>
      rw [List.drop_nil] at hat
      exact absurd hat (by simp [reMatchAt, ciPrefixMatch])
    | cons c cs =>
      have h0 : reMatchAt (c :: cs) = none := by
        have := hbefore 0 (Nat.succ_pos k)
        simpa using this
      have hrest : ∀ i, i < k → reMatchAt (cs.drop i) = none := by
        intro i hi
        have := hbefore (i + 1) (Nat.succ_lt_succ hi)
        simpa [List.drop_succ_cons] using this
      have hat2 : reMatchAt (cs.drop k) = some n := by
        simpa [List.drop_succ_cons] using hat
      simp only [stripQuoteRegex, h0]
      rw [ih cs n hrest hat2]
      have harith : k + 1 + n = (k + n) + 1 := by omega
      rw [harith]
      simp [List.take_succ_cons, List.drop_succ_cons]

/-- C9 counterexample: the conversion is NOT a suffix strip.  For
"BTCUSDTX" the code removes the non-suffix occurrence "USDT" and yields
"btcx", while the claim's suffix-stripping procedure (which leaves
non-suffix occurrences intact) yields "btcusdtx".  On the pure suffix
case "BTCUSDT" both agree on "btc". -/
theorem claim_C9_counterexample :
    toCoinGeckoId "BTCUSDTX" = "btcx" ∧
    suffixStripSpec "BTCUSDTX" = "btcusdtx" ∧
    ("btcx" : String) ≠ "btcusdtx" ∧
    toCoinGeckoId "BTCUSDT" = "btc" ∧
    suffixStripSpec "BTCUSDT" = "btc" :=
  ⟨rfl, rfl, by decide, rfl, rfl⟩

/-- C9 amended: the secondary-provider identifier is obtained by
removing the LEFTMOST case-insensitive occurrence of "USDT" or "BUSD"
anywhere in the symbol (the regex anchor binds only to the "BNB"
alternative, which must sit at the end), then lower-casing; in
particular, when the leftmost match is a suffix — which covers the
common case such as BTCUSDT — the result is exactly the lower-cased
symbol with that quote-asset suffix stripped. -/
theorem claim_C9_amended (l : List Char) (k n : Nat)
    (hbefore : ∀ i, i < k → reMatchAt (l.drop i) = none)
    (hat : reMatchAt (l.drop k) = some n)
    (hlen : l.length = k + n) :
    toCoinGeckoId (String.mk l) = jsToLower (String.mk (l.take k)) := by
  show jsToLower (String.mk (stripQuoteRegex (String.mk l).data))
    = jsToLower (String.mk (l.take k))
  rw [show (String.mk l).data = l from rfl]
  rw [stripQuoteRegex_leftmost k l n hbefore hat]
  rw [List.drop_eq_nil_of_le (by omega), List.append_nil]

/-- C9 witness: on the concrete symbol BTCUSDT the leftmost match is the
USDT suffix at position 3, and the conversion yields "btc". -/
theorem claim_C9_amended_witness :
    toCoinGeckoId (String.mk ['B', 'T', 'C', 'U', 'S', 'D', 'T']) = "btc" :=
  (claim_C9_amended ['B', 'T', 'C', 'U', 'S', 'D', 'T'] 3 4
    (by decide) (by decide) (by decide)).trans rfl
